import Mathlib

/-!
Verification of the place-notes application (app.js) against its
natural-language specification.

The JavaScript source is shallowly embedded: JS numbers are modelled as
real numbers, JS strings as Lean strings, the IndexedDB object store
"notes" (keyed on the note `id`) as a list of note records where `put`
upserts by key and `delete` removes by key, and the asynchronous UI
handlers as pure state-transition functions whose external effects
(network response, persistence success or failure, the clock) are passed
in explicitly.
-/

namespace PlaceNotes

/-- Model of JavaScript `Math.atan2(y, x)`: the angle of the point
(x, y), in (-pi, pi], computed by quadrant case split on `Real.arctan`. -/
noncomputable def atan2 (y x : ℝ) : ℝ :=
  if 0 < x then Real.arctan (y / x)
  else if x < 0 then
    (if 0 ≤ y then Real.arctan (y / x) + Real.pi
     else Real.arctan (y / x) - Real.pi)
  else if 0 < y then Real.pi / 2
  else if y < 0 then -(Real.pi / 2)
  else 0

/-- Degrees to radians, from `toRad` inside `distance` (app.js line 66):
`deg * Math.PI / 180`. -/
noncomputable def toRad (deg : ℝ) : ℝ := deg * Real.pi / 180

/-- Haversine great-circle distance in metres, from `distance`
(app.js lines 64-74), with Earth radius `R = 6371e3`. -/
noncomputable def distance (lat1 lon1 lat2 lon2 : ℝ) : ℝ :=
  let dLat := toRad (lat2 - lat1)
  let dLon := toRad (lon2 - lon1)
  let a := Real.sin (dLat / 2) * Real.sin (dLat / 2) +
    Real.cos (toRad lat1) * Real.cos (toRad lat2) *
    (Real.sin (dLon / 2) * Real.sin (dLon / 2))
  let c := 2 * atan2 (Real.sqrt a) (Real.sqrt (1 - a))
  6371000 * c

section
open Classical

/-- Boolean form of the radius test `distance(...) <= radius` used by the
filters in `getNotesByRadius` and `searchNotes`. -/
noncomputable def distLE (lat1 lon1 lat2 lon2 radius : ℝ) : Bool :=
  decide (distance lat1 lon1 lat2 lon2 ≤ radius)

end

/-- A note record as created by the note-form submit handler
(app.js lines 366-373): integer id from `Date.now()`, title, body,
latitude, longitude, ISO-8601 creation timestamp. -/
structure Note where
  id : ℕ
  title : String
  body : String
  lat : ℝ
  lon : ℝ
  createdAt : String

/-- The IndexedDB object store "notes" (`keyPath: 'id'`), modelled as the
list of its records. -/
abbrev NoteStore := List Note

/-- Model of `addNote` (app.js lines 47-52): IndexedDB `put` upserts by
the key `id`, replacing any record with the same key. -/
def addNote (store : NoteStore) (n : Note) : NoteStore :=
  store.filter (fun m => m.id != n.id) ++ [n]

/-- Model of `getAllNotes` (app.js lines 54-62): returns every stored
record. -/
def getAllNotes (store : NoteStore) : NoteStore := store

/-- Model of `deleteNote` (app.js lines 81-86): IndexedDB `delete`
removes the record with the given key if present. -/
def deleteNote (store : NoteStore) (id : ℕ) : NoteStore :=
  store.filter (fun m => m.id != id)

/-- Model of `getNotesByRadius` (app.js lines 76-79):
`notes.filter(n => distance(lat, lon, n.lat, n.lon) <= radius)`. -/
noncomputable def getNotesByRadius (store : NoteStore) (lat lon radius : ℝ) :
    NoteStore :=
  (getAllNotes store).filter (fun n => distLE lat lon n.lat n.lon radius)

theorem distLE_eq_true_iff (lat1 lon1 lat2 lon2 radius : ℝ) :
    distLE lat1 lon1 lat2 lon2 radius = true ↔
      distance lat1 lon1 lat2 lon2 ≤ radius := by
  unfold distLE
  exact decide_eq_true_iff

/-- C1: `getNotesByRadius(lat, lon, r)` returns exactly the stored notes
whose haversine distance from (lat, lon) is at most r metres, the
boundary case distance = r included. -/
theorem getNotesByRadius_mem_iff (store : NoteStore) (lat lon radius : ℝ)
    (n : Note) :
    n ∈ getNotesByRadius store lat lon radius ↔
      n ∈ store ∧ distance lat lon n.lat n.lon ≤ radius := by
  unfold getNotesByRadius getAllNotes
  rw [List.mem_filter, distLE_eq_true_iff]

theorem atan2_nonneg (y x : ℝ) (hy : 0 ≤ y) (hx : 0 ≤ x) : 0 ≤ atan2 y x := by
  unfold atan2
  split_ifs with h1 h2 h3 h4
  · rw [← Real.arctan_zero]
    exact Real.arctan_strictMono.monotone (div_nonneg hy (le_of_lt h1))
  all_goals linarith [Real.pi_pos]

theorem distance_self (lat lon : ℝ) : distance lat lon lat lon = 0 := by
  unfold distance toRad atan2
  norm_num

theorem distance_symm (lat1 lon1 lat2 lon2 : ℝ) :
    distance lat1 lon1 lat2 lon2 = distance lat2 lon2 lat1 lon1 := by
  have key : ∀ u v : ℝ,
      Real.sin (toRad (u - v) / 2) * Real.sin (toRad (u - v) / 2) =
        Real.sin (toRad (v - u) / 2) * Real.sin (toRad (v - u) / 2) := by
    intro u v
    have h : toRad (u - v) / 2 = -(toRad (v - u) / 2) := by
      unfold toRad
      ring
    rw [h, Real.sin_neg]
    ring
  unfold distance
  dsimp only
  rw [key lat2 lat1, key lon2 lon1,
    mul_comm (Real.cos (toRad lat1)) (Real.cos (toRad lat2))]

theorem distance_nonneg (lat1 lon1 lat2 lon2 : ℝ) :
    0 ≤ distance lat1 lon1 lat2 lon2 := by
  unfold distance
  dsimp only
  have h := atan2_nonneg
    (Real.sqrt (Real.sin (toRad (lat2 - lat1) / 2) * Real.sin (toRad (lat2 - lat1) / 2) +
      Real.cos (toRad lat1) * Real.cos (toRad lat2) *
      (Real.sin (toRad (lon2 - lon1) / 2) * Real.sin (toRad (lon2 - lon1) / 2))))
    (Real.sqrt (1 - (Real.sin (toRad (lat2 - lat1) / 2) * Real.sin (toRad (lat2 - lat1) / 2) +
      Real.cos (toRad lat1) * Real.cos (toRad lat2) *
      (Real.sin (toRad (lon2 - lon1) / 2) * Real.sin (toRad (lon2 - lon1) / 2)))))
    (Real.sqrt_nonneg _) (Real.sqrt_nonneg _)
  linarith

/-- C9: the haversine distance satisfies distance(A, A) = 0, symmetry
distance(A, B) = distance(B, A), and nonnegativity 0 ≤ distance(A, B),
for all coordinate pairs. -/
theorem distance_metric_properties (lat1 lon1 lat2 lon2 : ℝ) :
    distance lat1 lon1 lat1 lon1 = 0 ∧
    distance lat1 lon1 lat2 lon2 = distance lat2 lon2 lat1 lon1 ∧
    0 ≤ distance lat1 lon1 lat2 lon2 :=
  ⟨distance_self lat1 lon1, distance_symm lat1 lon1 lat2 lon2,
    distance_nonneg lat1 lon1 lat2 lon2⟩

/-- C3: after `addNote(n)` the store contains a note equal to n (put
upserts by id, so a note with the same id is replaced by n), and after a
subsequent `deleteNote(n.id)` no note with id n.id remains. -/
theorem addNote_deleteNote_roundtrip (store : NoteStore) (n : Note) :
    n ∈ getAllNotes (addNote store n) ∧
    (∀ m ∈ getAllNotes (addNote store n), m.id = n.id → m = n) ∧
    (∀ m ∈ getAllNotes (deleteNote (addNote store n) n.id), m.id ≠ n.id) := by
  refine ⟨?_, ?_, ?_⟩
  · exact List.mem_append_right _ (List.mem_singleton_self n)
  · intro m hm hid
    rcases List.mem_append.1 hm with h | h
    · exact absurd hid (bne_iff_ne.1 (List.mem_filter.1 h).2)
    · exact List.mem_singleton.1 h
  · intro m hm
    exact bne_iff_ne.1 (List.mem_filter.1 hm).2

/-- Sample note used to instantiate the round-trip theorem. -/
def noteA : Note := ⟨1, "groceries", "buy milk", 0, 0, "2024-01-01T00:00:00.000Z"⟩

/-- Second sample note, with a different id. -/
def noteB : Note := ⟨2, "park", "nice bench", 0, 0, "2024-01-02T00:00:00.000Z"⟩

theorem addNote_deleteNote_roundtrip_witness :
    noteA ∈ getAllNotes (addNote [noteB] noteA) ∧ noteB.id ≠ noteA.id :=
  ⟨(addNote_deleteNote_roundtrip [noteB] noteA).1,
    (addNote_deleteNote_roundtrip [noteB] noteA).2.2 noteB
      (by simp [getAllNotes, deleteNote, addNote, noteA, noteB])⟩

theorem getNotesByRadius_witness :
    noteA ∈ getNotesByRadius [noteA] 0 0 100 :=
  (getNotesByRadius_mem_iff [noteA] 0 0 100 noteA).mpr
    ⟨List.mem_singleton_self noteA, by
      show distance 0 0 noteA.lat noteA.lon ≤ 100
      have h : noteA.lat = 0 ∧ noteA.lon = 0 := ⟨rfl, rfl⟩
      rw [h.1, h.2, distance_self]
      norm_num⟩

theorem distance_metric_properties_witness :
    distance 0 0 0 0 = 0 ∧ distance 0 0 1 1 = distance 1 1 0 0 ∧
      0 ≤ distance 0 0 1 1 :=
  ⟨(distance_metric_properties 0 0 1 1).1, (distance_metric_properties 0 0 1 1).2.1,
    (distance_metric_properties 0 0 1 1).2.2⟩

/-- Model of JavaScript `String.prototype.toLowerCase` (used by
`searchNotes`): lower-case every character. -/
def toLowerCase (s : String) : String := ⟨s.data.map Char.toLower⟩

/-- Model of JavaScript `hay.includes(needle)` (used by `searchNotes`):
`needle` occurs as a contiguous substring of `hay`. -/
def includes (hay needle : String) : Bool := decide (needle.data <:+: hay.data)

/-- The argument object `{ text, lat, lon, radius = 100 }` of
`searchNotes` (app.js line 88); absent properties are `none`, and
`radius` defaults to 100. -/
structure SearchArgs where
  text : Option String := none
  lat : Option ℝ := none
  lon : Option ℝ := none
  radius : ℝ := 100

/-- Model of `searchNotes` (app.js lines 88-100). The JS truthiness test
`text ? text.toLowerCase() : null` maps the absent and the empty-string
`text` to `none`; `n.title && ...` and `n.body && ...` guard the
substring tests by non-emptiness; the location test fires only when both
`lat` and `lon` are numbers. -/
noncomputable def searchNotes (store : NoteStore) (args : SearchArgs) : NoteStore :=
  let lower : Option String :=
    match args.text with
    | some t => if t = "" then none else some (toLowerCase t)
    | none => none
  (getAllNotes store).filter fun n =>
    let textMatch : Bool :=
      match lower with
      | none => true
      | some l =>
        (n.title != "" && includes (toLowerCase n.title) l) ||
          (n.body != "" && includes (toLowerCase n.body) l)
    let locMatch : Bool :=
      match args.lat, args.lon with
      | some la, some lo => distLE la lo n.lat n.lon args.radius
      | _, _ => true
    textMatch && locMatch

theorem toLowerCase_empty : toLowerCase "" = "" := rfl

theorem includes_empty_needle (hay : String) : includes hay "" = true :=
  decide_eq_true ⟨[], hay.data, by simp⟩

theorem includes_empty_hay {t : String} (ht : t ≠ "") :
    includes "" (toLowerCase t) = false := by
  apply decide_eq_false
  rintro ⟨s, u, h⟩
  simp only [List.append_eq_nil] at h
  rcases h with ⟨⟨-, h2⟩, -⟩
  · exact ht (by cases t with
      | mk data =>
        simp only [toLowerCase, List.map_eq_nil_iff] at h2
        simp [h2])

/-- C2: `searchNotes` returns exactly the stored notes satisfying the
conjunction of the supplied predicates: when `text` is supplied, a
case-insensitive substring match of the text against the title or the
body; when both `lat` and `lon` are supplied, haversine distance at most
`radius` (default 100); each omitted predicate passes unconditionally. -/
theorem searchNotes_mem_iff (store : NoteStore) (args : SearchArgs) (n : Note) :
    n ∈ searchNotes store args ↔
      n ∈ store ∧
      (∀ t, args.text = some t →
        (includes (toLowerCase n.title) (toLowerCase t) = true ∨
         includes (toLowerCase n.body) (toLowerCase t) = true)) ∧
      (∀ la lo, args.lat = some la → args.lon = some lo →
        distance la lo n.lat n.lon ≤ args.radius) := by
  obtain ⟨text, lat, lon, radius⟩ := args
  unfold searchNotes getAllNotes
  rw [List.mem_filter]
  dsimp only
  rcases text with - | t
  · rcases lat with - | la <;> rcases lon with - | lo <;>
      simp [distLE_eq_true_iff, and_assoc]
  · by_cases ht : t = ""
    · subst ht
      rcases lat with - | la <;> rcases lon with - | lo <;>
        simp [distLE_eq_true_iff, toLowerCase_empty, includes_empty_needle,
          and_assoc]
    · by_cases hti : n.title = "" <;> by_cases hbo : n.body = "" <;>
        rcases lat with - | la <;> rcases lon with - | lo <;>
          simp [distLE_eq_true_iff, ht, hti, hbo, toLowerCase_empty,
            includes_empty_hay ht, and_assoc]

theorem searchNotes_mem_iff_witness :
    noteA ∈ searchNotes [noteA] ⟨some "MILK", none, none, 100⟩ :=
  (searchNotes_mem_iff [noteA] ⟨some "MILK", none, none, 100⟩ noteA).mpr
    ⟨List.mem_singleton_self noteA,
      fun t ht => by
        injection ht with h
        subst h
        right
        decide,
      fun la lo h => nomatch h⟩

/-- Coordinates as carried by a geolocation fix or built from a remote
search result (app.js lines 225-230). -/
structure Coords where
  latitude : ℝ
  longitude : ℝ

/-- A position object: both the geolocation API result and the object
built by the search handler wrap the coordinates in a `coords` field. -/
structure Position where
  coords : Coords

/-- The `locationStore` singleton (app.js lines 113-122): two optional
slots, `current` (last device fix) and `selected` (anchor for the next
note). -/
structure LocationStore where
  current : Option Position := none
  selected : Option Position := none

/-- `locationStore.getCurrent` (app.js line 117). -/
def getCurrent (st : LocationStore) : Option Position := st.current

/-- `locationStore.setCurrent` (app.js line 118). -/
def setCurrent (st : LocationStore) (pos : Position) : LocationStore :=
  { st with current := some pos }

/-- `locationStore.getSelected` (app.js line 119). -/
def getSelected (st : LocationStore) : Option Position := st.selected

/-- `locationStore.setSelected` (app.js line 120). -/
def setSelected (st : LocationStore) (pos : Position) : LocationStore :=
  { st with selected := some pos }

/-- The success callback of `fetchLocation` (app.js lines 153-157):
`locationStore.setCurrent(pos); locationStore.setSelected(pos)`. -/
def fetchLocationSuccess (st : LocationStore) (pos : Position) : LocationStore :=
  setSelected (setCurrent st pos) pos

/-- A place record from the remote search response, with `lat` and `lon`
already parsed to numbers (`parseFloat(place.lat)`, app.js line 227; the
decimal-string parsing of the external HTTP interface is abstracted). -/
structure Place where
  lat : ℝ
  lon : ℝ
  displayName : String

/-- Outcome of the awaited `fetch` + `res.json()`: a parsed JSON array,
or a network/parse failure (the `catch` branch). -/
inductive FetchResult where
  | success (data : List Place)
  | failure

/-- Model of JavaScript `String.prototype.trim` (used on form queries):
drop whitespace from both ends. -/
def jsTrim (s : String) : String :=
  ⟨((s.data.dropWhile Char.isWhitespace).reverse.dropWhile
      Char.isWhitespace).reverse⟩

/-- The mutable state touched by the UI handlers: the location store,
`lastSearchTime` (app.js line 136), the `searchResult` display text, the
note-form visibility, and the notes object store. -/
structure UIState where
  loc : LocationStore := {}
  lastSearchTime : ℤ := 0
  searchResultText : String := ""
  noteFormVisible : Bool := false
  notes : NoteStore := []

/-- Result of one `searchForm` submission: the state afterwards, the
alert raised (if any), and whether a network request was issued. -/
structure SearchOutcome where
  state : UIState
  alertMsg : Option String
  networkIssued : Bool

/-- Model of the `searchForm` submit handler (app.js lines 197-237).
The clock value `Date.now()` and the network outcome are passed in
explicitly; the handler trims the query, drops empty queries, rejects
submissions within 1000 ms of the last accepted one, and otherwise
records the time, issues the request and dispatches on the response. -/
def searchSubmit (st : UIState) (rawQuery : String) (now : ℤ)
    (resp : FetchResult) : SearchOutcome :=
  let query := jsTrim rawQuery
  if query = "" then ⟨st, none, false⟩
  else if now - st.lastSearchTime < 1000 then
    ⟨st, some "Please wait before searching again.", false⟩
  else
    let st1 := { st with lastSearchTime := now, searchResultText := "Searching..." }
    match resp with
    | .failure => ⟨{ st1 with searchResultText := "Search failed" }, none, true⟩
    | .success [] => ⟨{ st1 with searchResultText := "No results" }, none, true⟩
    | .success (place :: _) =>
      ⟨{ st1 with
          loc := setSelected st1.loc ⟨⟨place.lat, place.lon⟩⟩,
          searchResultText := place.displayName,
          noteFormVisible := true }, none, true⟩

/-- Result of one `noteForm` submission: the state afterwards and the
alert raised (if any). -/
structure NoteOutcome where
  state : UIState
  alertMsg : Option String

/-- Model of the `noteForm` submit handler (app.js lines 355-387): abort
with a warning when no position is selected; otherwise build the note
from the selected coordinates and attempt the persistence write
(`writeOk` tells whether the transaction commits); the `finally` block
clears the search feedback in both the success and the failure branch. -/
def noteSubmit (st : UIState) (title body : String) (nowMs : ℕ)
    (createdAt : String) (writeOk : Bool) : NoteOutcome :=
  match getSelected st.loc with
  | none => ⟨st, some "Select a location first"⟩
  | some pos =>
    let note : Note :=
      ⟨nowMs, title, body, pos.coords.latitude, pos.coords.longitude, createdAt⟩
    if writeOk then
      ⟨{ st with
          notes := addNote st.notes note,
          noteFormVisible := false,
          searchResultText := "" }, none⟩
    else
      ⟨{ st with searchResultText := "" }, some "Failed to save note"⟩

/-- C4: a successful device-location fetch sets both the current and the
selected slots to the new device position, while a successful accepted
remote place search sets only the selected slot, leaving current
unchanged from its prior value. -/
theorem location_slot_updates (st : LocationStore) (pos : Position)
    (ui : UIState) (q : String) (now : ℤ) (place : Place) (rest : List Place)
    (hq : jsTrim q ≠ "") (hacc : ¬(now - ui.lastSearchTime < 1000)) :
    (fetchLocationSuccess st pos).current = some pos ∧
    (fetchLocationSuccess st pos).selected = some pos ∧
    (searchSubmit ui q now (.success (place :: rest))).state.loc.selected =
      some ⟨⟨place.lat, place.lon⟩⟩ ∧
    (searchSubmit ui q now (.success (place :: rest))).state.loc.current =
      ui.loc.current := by
  refine ⟨rfl, rfl, ?_, ?_⟩ <;>
    simp [searchSubmit, setSelected, hq, hacc]

theorem location_slot_updates_witness :
    (fetchLocationSuccess {} ⟨⟨1, 2⟩⟩).current = some ⟨⟨1, 2⟩⟩ ∧
    (fetchLocationSuccess {} ⟨⟨1, 2⟩⟩).selected = some ⟨⟨1, 2⟩⟩ ∧
    (searchSubmit {} "paris" 2000
        (.success [⟨3, 4, "Paris"⟩])).state.loc.selected = some ⟨⟨3, 4⟩⟩ ∧
    (searchSubmit {} "paris" 2000
        (.success [⟨3, 4, "Paris"⟩])).state.loc.current = ({} : UIState).loc.current :=
  location_slot_updates {} ⟨⟨1, 2⟩⟩ {} "paris" 2000 ⟨3, 4, "Paris"⟩ []
    (by decide) (by decide)

/-- C5: a second remote-search submission with a non-empty query, made
strictly less than 1000 ms after the last accepted one, is rejected: the
user is warned with "Please wait before searching again.", no network
request is issued, and the state (the last-accepted timestamp and the
selected position included) is unchanged. -/
theorem search_rate_limit (st : UIState) (q1 q2 : String) (now1 now2 : ℤ)
    (resp1 resp2 : FetchResult)
    (hq1 : jsTrim q1 ≠ "") (hacc : ¬(now1 - st.lastSearchTime < 1000))
    (hq2 : jsTrim q2 ≠ "") (hfast : now2 - now1 < 1000) :
    searchSubmit (searchSubmit st q1 now1 resp1).state q2 now2 resp2 =
      ⟨(searchSubmit st q1 now1 resp1).state,
        some "Please wait before searching again.", false⟩ := by
  have hlast : (searchSubmit st q1 now1 resp1).state.lastSearchTime = now1 := by
    cases resp1 with
    | failure => simp [searchSubmit, hq1, hacc]
    | success data => cases data <;> simp [searchSubmit, hq1, hacc]
  obtain ⟨s1, hs1⟩ : ∃ s, (searchSubmit st q1 now1 resp1).state = s := ⟨_, rfl⟩
  rw [hs1] at hlast ⊢
  unfold searchSubmit
  dsimp only
  rw [if_neg hq2, hlast, if_pos hfast]

theorem search_rate_limit_witness :
    searchSubmit (searchSubmit {} "a" 2000 (.success [])).state "b" 2500
        (.success []) =
      ⟨(searchSubmit {} "a" 2000 (.success [])).state,
        some "Please wait before searching again.", false⟩ :=
  search_rate_limit {} "a" "b" 2000 2500 (.success []) (.success [])
    (by decide) (by decide) (by decide) (by decide)

/-- C6: saving a note with no selected position warns the user and aborts
with the state unchanged; with a selected position, a failing persistence
write raises the alert "Failed to save note" and leaves the store
unchanged; and whether the write succeeds or fails, the search feedback
text is cleared to the empty string. -/
theorem note_save_behavior (st : UIState) (title body : String) (nowMs : ℕ)
    (createdAt : String) (writeOk : Bool) :
    (getSelected st.loc = none →
      noteSubmit st title body nowMs createdAt writeOk =
        ⟨st, some "Select a location first"⟩) ∧
    (∀ pos, getSelected st.loc = some pos →
      (noteSubmit st title body nowMs createdAt false).alertMsg =
          some "Failed to save note" ∧
      (noteSubmit st title body nowMs createdAt false).state.notes = st.notes ∧
      (noteSubmit st title body nowMs createdAt writeOk).state.searchResultText
        = "") := by
  constructor
  · intro h
    unfold noteSubmit
    rw [h]
  · intro pos h
    unfold noteSubmit
    rw [h]
    refine ⟨rfl, rfl, ?_⟩
    cases writeOk <;> rfl

/-- A UI state with a selected position, as after a successful remote
search for coordinates (1, 2) displaying "Foo". -/
def stateWithSelection : UIState :=
  { loc := { selected := some ⟨⟨1, 2⟩⟩ }, searchResultText := "Foo" }

theorem note_save_behavior_witness :
    (noteSubmit stateWithSelection "t" "b" 5 "2024-01-03" false).alertMsg =
        some "Failed to save note" ∧
    (noteSubmit stateWithSelection "t" "b" 5 "2024-01-03" false).state.notes =
        stateWithSelection.notes ∧
    (noteSubmit stateWithSelection "t" "b" 5 "2024-01-03"
        false).state.searchResultText = "" :=
  (note_save_behavior stateWithSelection "t" "b" 5 "2024-01-03" false).2
    ⟨⟨1, 2⟩⟩ rfl

/-- C7: an accepted remote search whose response is the empty array sets
the display text to "No results" and leaves the selected position
unchanged; an accepted remote search whose request or parsing fails sets
the display text to "Search failed" and likewise leaves the selected
position unchanged. -/
theorem search_empty_and_failure_outcomes (st : UIState) (q : String)
    (now : ℤ) (hq : jsTrim q ≠ "") (hacc : ¬(now - st.lastSearchTime < 1000)) :
    ((searchSubmit st q now (.success [])).state.searchResultText =
        "No results" ∧
      (searchSubmit st q now (.success [])).state.loc.selected =
        st.loc.selected) ∧
    ((searchSubmit st q now .failure).state.searchResultText =
        "Search failed" ∧
      (searchSubmit st q now .failure).state.loc.selected =
        st.loc.selected) := by
  refine ⟨⟨?_, ?_⟩, ⟨?_, ?_⟩⟩ <;> simp [searchSubmit, hq, hacc]

theorem search_empty_and_failure_outcomes_witness :
    ((searchSubmit {} "x" 2000 (.success [])).state.searchResultText =
        "No results" ∧
      (searchSubmit {} "x" 2000 (.success [])).state.loc.selected =
        ({} : UIState).loc.selected) ∧
    ((searchSubmit {} "x" 2000 .failure).state.searchResultText =
        "Search failed" ∧
      (searchSubmit {} "x" 2000 .failure).state.loc.selected =
        ({} : UIState).loc.selected) :=
  search_empty_and_failure_outcomes {} "x" 2000 (by decide) (by decide)

/-- Result of one `noteSearchForm` submission: the note list rendered
(none when the handler returns before rendering), and whether a network
request was issued. -/
structure NoteSearchOutcome where
  rendered : Option NoteStore
  networkIssued : Bool

/-- Model of the `noteSearchForm` submit handler (app.js lines 239-272):
trim the query and drop it when empty; run the local text search first
and render its results without any network call when non-empty; otherwise
geocode the query remotely and render the stored notes within 100 m of
the first result, rendering an empty list on an empty response or on
failure. -/
noncomputable def noteSearchSubmit (store : NoteStore) (rawQuery : String)
    (resp : FetchResult) : NoteSearchOutcome :=
  let query := jsTrim rawQuery
  if query = "" then ⟨none, false⟩
  else
    let notes := searchNotes store { text := some query }
    if 0 < notes.length then ⟨some notes, false⟩
    else
      match resp with
      | .failure => ⟨some [], true⟩
      | .success [] => ⟨some [], true⟩
      | .success (place :: _) =>
        ⟨some (searchNotes store
          { lat := some place.lat, lon := some place.lon, radius := 100 }), true⟩

/-- C10: on a non-empty note-search query the handler first runs the
local text search; a non-empty local result is rendered with no network
request; only an empty local result triggers the remote geocoding, after
which the handler renders exactly the stored notes within 100 metres of
the first geocoding result, and renders an empty list when the remote
lookup fails or returns no results. -/
theorem note_search_behavior (store : NoteStore) (q : String)
    (resp : FetchResult) (hq : jsTrim q ≠ "") :
    (0 < (searchNotes store { text := some (jsTrim q) }).length →
      noteSearchSubmit store q resp =
        ⟨some (searchNotes store { text := some (jsTrim q) }), false⟩) ∧
    ((searchNotes store { text := some (jsTrim q) }).length = 0 →
      (noteSearchSubmit store q resp).networkIssued = true ∧
      (resp = .failure → (noteSearchSubmit store q resp).rendered = some []) ∧
      (resp = .success [] →
        (noteSearchSubmit store q resp).rendered = some []) ∧
      (∀ place rest, resp = .success (place :: rest) →
        ∃ l, (noteSearchSubmit store q resp).rendered = some l ∧
          ∀ m, m ∈ l ↔
            m ∈ store ∧ distance place.lat place.lon m.lat m.lon ≤ 100)) := by
  constructor
  · intro hpos
    unfold noteSearchSubmit
    dsimp only
    rw [if_neg hq, if_pos hpos]
  · intro hzero
    have hneg : ¬0 < (searchNotes store { text := some (jsTrim q) }).length := by
      omega
    refine ⟨?_, ?_, ?_, ?_⟩
    · unfold noteSearchSubmit
      dsimp only
      rw [if_neg hq, if_neg hneg]
      cases resp with
      | failure => rfl
      | success data => cases data <;> rfl
    · intro h
      subst h
      unfold noteSearchSubmit
      dsimp only
      rw [if_neg hq, if_neg hneg]
    · intro h
      subst h
      unfold noteSearchSubmit
      dsimp only
      rw [if_neg hq, if_neg hneg]
    · intro place rest h
      subst h
      refine ⟨searchNotes store
        { lat := some place.lat, lon := some place.lon, radius := 100 },
        ?_, ?_⟩
      · unfold noteSearchSubmit
        dsimp only
        rw [if_neg hq, if_neg hneg]
      · intro m
        rw [searchNotes_mem_iff]
        constructor
        · rintro ⟨hm, -, hloc⟩
          exact ⟨hm, hloc place.lat place.lon rfl rfl⟩
        · rintro ⟨hm, hloc⟩
          refine ⟨hm, ?_, ?_⟩
          · intro t ht
            simp at ht
          · intro la lo hla hlo
            dsimp only at hla hlo ⊢
            injection hla with h1
            injection hlo with h2
            rw [← h1, ← h2]
            exact hloc

theorem note_search_behavior_witness :
    ((searchNotes ([] : NoteStore) { text := some (jsTrim "cafe") }).length
        = 0) ∧
    (noteSearchSubmit [] "cafe" (.success [⟨3, 4, "Cafe"⟩])).networkIssued
        = true :=
  ⟨rfl, ((note_search_behavior [] "cafe" (.success [⟨3, 4, "Cafe"⟩])
    (by decide)).2 rfl).1⟩

/-- Events of the persistence layer's lifetime: the one-time store
initialization (`indexedDB.open` with the schema upgrade, app.js lines
30-38), and the start of a persistence operation (`addNote`,
`getAllNotes` or `deleteNote`, each of which begins with
`await dbPromise`). -/
inductive DbEvent where
  | openDb
  | access (opIndex : ℕ)
deriving DecidableEq

/-- Events emitted by evaluating the module: `dbPromise` is a top-level
`new Promise(...)` (app.js line 30) whose executor runs synchronously at
module load, so `indexedDB.open` is issued immediately, before any
persistence operation is called. -/
def moduleInitEvents : List DbEvent := [DbEvent.openDb]

/-- A session that loads the module and then performs `numOps`
persistence operations. Each operation awaits the same memoized
`dbPromise`; an already-created promise never reruns its executor, so no
further `openDb` event is emitted. -/
def runSession (numOps : ℕ) : List DbEvent :=
  moduleInitEvents ++ (List.range numOps).map DbEvent.access

/-- The lazy-initialization property as the specification states it:
whenever the store initialization occurs in the trace, some persistence
access precedes it (initialization "happens lazily on first access" and
"is never performed before the first persistence access"). -/
def lazyInit (t : List DbEvent) : Prop :=
  ∀ i : Fin t.length, t.get i = DbEvent.openDb →
    ∃ j : Fin t.length, j.val < i.val ∧ t.get j ≠ DbEvent.openDb

/-- C8 counterexample: in a session performing one persistence
operation, the initialization event is first in the trace, preceded by no
persistence access — `dbPromise` runs `indexedDB.open` eagerly at module
load, not lazily on first access. -/
theorem dbInit_not_lazy : ¬ lazyInit (runSession 1) := by
  unfold lazyInit runSession moduleInitEvents
  decide

/-- C8 amended: the store initialization is performed eagerly, exactly
once, at module load — it is the first event of every session, it
precedes every persistence operation (each of which awaits that same
single memoized promise), and it is never performed twice. -/
theorem dbInit_eager_once (numOps : ℕ) :
    (runSession numOps).count DbEvent.openDb = 1 ∧
    (runSession numOps).head? = some DbEvent.openDb := by
  constructor
  · have h : ((List.range numOps).map DbEvent.access).count DbEvent.openDb = 0 := by
      rw [List.count_eq_zero]
      intro hmem
      obtain ⟨k, -, hk⟩ := List.mem_map.1 hmem
      exact absurd hk (by simp)
    simp [runSession, moduleInitEvents, List.count_append, h]
  · rfl

end PlaceNotes
